import Mathlib

/-!
Verification of the discogsdash Collection Synchronization Engine.

Shallow embedding of the core modules:
  * `src/src/lib/retryUtils.ts`   — generic retry/backoff engine (`withRetry`)
  * `src/src/lib/discogs/client.ts` — signed API client, price-suggestion fetch
  * `src/src/lib/discogs/oauth.ts`  — request-token (handshake ticket) storage
  * `src/src/lib/syncLogic.ts`      — `runCollectionSync`, `parseValue`,
                                       condition-fallback value resolution
  * `src/src/lib/db.ts` (transaction helper) — BEGIN / body / COMMIT,
                                       ROLLBACK on failure

Network I/O is modelled by oracles (one outcome per attempt / per page / per
release id); time by an abstract timestamp string; JavaScript numbers by `Rat`;
thrown `Error` values by an `Err` structure carrying `message` and `code`.
-/

namespace Discogs

/-- `pat` occurs as a contiguous run inside `s` (character lists). -/
def listContains (pat : List Char) : List Char → Bool
  | [] => pat.isPrefixOf []
  | c :: rest => pat.isPrefixOf (c :: rest) || listContains pat rest

/-- `s.includes(pat)` of JavaScript: substring containment. -/
def strContains (s pat : String) : Bool :=
  listContains pat.toList s.toList

/-- `s.toLowerCase()` over the characters (ASCII case folding, which is all
the classified messages contain). -/
def strToLower (s : String) : String :=
  String.mk (s.toList.map Char.toLower)

/-- A thrown JavaScript `Error`: its `message`, and the optional `code`
property carried by Node network errors (`ECONNREFUSED`, `ETIMEDOUT`). -/
structure Err where
  message : String
  code : Option String := none
deriving DecidableEq, Repr

instance {ε α : Type} [DecidableEq ε] [DecidableEq α] : DecidableEq (Except ε α) :=
  fun x y =>
    match x, y with
    | .error e1, .error e2 =>
      if h : e1 = e2 then .isTrue (h ▸ rfl)
      else .isFalse (fun hh => h (Except.error.inj hh))
    | .error _, .ok _ => .isFalse (fun hh => Except.noConfusion hh)
    | .ok _, .error _ => .isFalse (fun hh => Except.noConfusion hh)
    | .ok a1, .ok a2 =>
      if h : a1 = a2 then .isTrue (h ▸ rfl)
      else .isFalse (fun hh => h (Except.ok.inj hh))

/-! ## Retry Policy Engine — `src/src/lib/retryUtils.ts` -/

/-- The `RetryOptions` of `withRetry`, with every field resolved (the source
applies defaults `{5, 1000, 30000, 2, defaultRetryCondition}` at entry).
Delays are milliseconds as rationals (`backoffMultiplier` can be `1.5`). -/
structure RetryPolicy where
  maxRetries : Nat
  baseDelay : Rat
  maxDelay : Rat
  backoffMultiplier : Rat
  retryCondition : Err → Bool

/-- What `withRetry` ends with: the operation's value, a fatal error re-thrown
unchanged, or the distinguished `RetryError` (attempt count + last error). -/
inductive RetryOutcome (α : Type) where
  | ok (a : α)
  | fatal (e : Err)
  | exhausted (attempts : Nat) (last : Err)
deriving DecidableEq, Repr

/-- One run of `withRetry`: its outcome, every delay slept (ms, in order), and
how many times the operation was invoked. -/
structure RetryRun (α : Type) where
  result : RetryOutcome α
  sleeps : List Rat
  attemptsMade : Nat
deriving DecidableEq, Repr

/-- The rate-limit test inside `withRetry`'s catch block:
`message.includes("429") || message.toLowerCase().includes("too many requests")`. -/
def isRateLimitErr (e : Err) : Bool :=
  strContains e.message "429" || strContains (strToLower e.message) "too many requests"

/-- The `RetryError` message: `Operation failed after N attempts: <last>`. -/
def retryErrMessage (attempts : Nat) (last : Err) : String :=
  "Operation failed after " ++ toString attempts ++ " attempts: " ++ last.message

/-- The `for (attempt = 1; attempt <= maxRetries + 1; ...)` loop of `withRetry`.
`remaining` counts the iterations still allowed (`maxRetries + 2 - attempt`),
so `remaining = 1` exactly when `attempt > maxRetries` would hold after a
failure, which is the branch that breaks out and wraps the last error.
The `remaining = 0` base case mirrors the initial
`lastError = Error("No attempts made")` of the source (a loop that never ran).
The operation is an oracle from the attempt number to that attempt's outcome. -/
def withRetryGo (p : RetryPolicy) (op : Nat → Except Err α) :
    Nat → Rat → Nat → RetryRun α
  | _, _, 0 => ⟨.exhausted (p.maxRetries + 1) ⟨"No attempts made", none⟩, [], 0⟩
  | attempt, delay, remaining + 1 =>
    match op attempt with
    | .ok a => ⟨.ok a, [], 1⟩
    | .error e =>
      if remaining = 0 then
        ⟨.exhausted (p.maxRetries + 1) e, [], 1⟩
      else if !p.retryCondition e then
        ⟨.fatal e, [], 1⟩
      else
        let actualDelay := if isRateLimitErr e then max delay 5000 else delay
        let rest := withRetryGo p op (attempt + 1)
          (min (delay * p.backoffMultiplier) p.maxDelay) remaining
        ⟨rest.result, actualDelay :: rest.sleeps, rest.attemptsMade + 1⟩

/-- `withRetry(operation, options)`: up to `maxRetries + 1` attempts starting
from attempt 1 with the base delay. -/
def withRetry (p : RetryPolicy) (op : Nat → Except Err α) : RetryRun α :=
  withRetryGo p op 1 p.baseDelay (p.maxRetries + 1)

/-- `defaultRetryCondition` of `retryUtils.ts`: network error codes, then —
when the message is a non-empty string — rate limiting, 5xx, network words. -/
def defaultRetryCondition (e : Err) : Bool :=
  if e.code = some "ECONNREFUSED" || e.code = some "ETIMEDOUT" then true
  else if e.message = "" then false
  else
    let m := strToLower e.message
    strContains m "429" || strContains m "too many requests" ||
    strContains m "500" || strContains m "502" ||
    strContains m "503" || strContains m "504" ||
    strContains m "network" || strContains m "timeout" || strContains m "connection"

/-- The custom retry predicate of `createDiscogsRetryOptions`: OAuth
authentication failures are fatal; rate limiting, 5xx and network issues are
retryable. -/
def discogsRetryCondition (e : Err) : Bool :=
  if e.code = some "ECONNREFUSED" || e.code = some "ETIMEDOUT" then true
  else if e.message = "" then false
  else
    let m := strToLower e.message
    if strContains m "invalid request token" || strContains m "invalid access token" ||
        (strContains m "unauthorized" && strContains m "oauth") then false
    else
      strContains m "429" || strContains m "too many requests" ||
      strContains m "500" || strContains m "502" ||
      strContains m "503" || strContains m "504" ||
      strContains m "network" || strContains m "timeout" ||
      strContains m "connection" || strContains m "enotfound" ||
      strContains m "socket hang up"

/-- `createDiscogsRetryOptions()`: 8 retries, 2 s base delay, 60 s cap,
multiplier 1.5, the Discogs-specific retry predicate. -/
def createDiscogsRetryOptions : RetryPolicy :=
  { maxRetries := 8
    baseDelay := 2000
    maxDelay := 60000
    backoffMultiplier := 1.5
    retryCondition := discogsRetryCondition }

/-! ## Catalog API Client — `src/src/lib/discogs/client.ts` -/

/-- One HTTP response as the client sees it: status, status text, body text,
and the `Retry-After` header (seconds) when the server supplies one. -/
structure HttpResponse where
  status : Nat
  statusText : String
  body : String
  retryAfter : Option Nat := none
deriving DecidableEq, Repr

/-- What one `fetch` inside `makeDiscogsRequest` produces: a parsed 2xx body, a
204 No Content, a non-ok HTTP response, or a network-level failure. -/
inductive FetchOutcome (β : Type) where
  | success (b : β)
  | noContent
  | httpError (r : HttpResponse)
  | netError (e : Err)

/-- The error message `makeDiscogsRequest` throws for a non-ok response:
`Discogs API request failed: <status> <statusText> - <body>`. Note that the
`Retry-After` header of the response is only logged — it is not part of the
thrown error, so the retry engine never sees it. -/
def discogsErrMessage (r : HttpResponse) : String :=
  "Discogs API request failed: " ++ toString r.status ++ " " ++ r.statusText
    ++ " - " ++ r.body

/-- One attempt of the operation `makeDiscogsRequest` hands to `withRetry`:
missing stored OAuth tokens throw; otherwise the fetch outcome for this
attempt is classified (2xx body, 204 → null, non-ok → thrown message error,
network error → rethrown). -/
def requestAttempt (hasTokens : Bool) (oracle : Nat → FetchOutcome β)
    (n : Nat) : Except Err (Option β) :=
  if !hasTokens then
    .error ⟨"No OAuth tokens found. Please complete OAuth authentication first.", none⟩
  else
    match oracle n with
    | .success b => .ok (some b)
    | .noContent => .ok none
    | .httpError r => .error ⟨discogsErrMessage r, none⟩
    | .netError e => .error e

/-- `makeDiscogsRequest` as the full retry run (keeping the slept delays). -/
def makeDiscogsRequestRun (hasTokens : Bool) (oracle : Nat → FetchOutcome β) :
    RetryRun (Option β) :=
  withRetry createDiscogsRetryOptions (requestAttempt hasTokens oracle)

/-- Collapse a retry run to what the caller of `withRetry` observes: the value,
the unchanged fatal error, or the wrapping `RetryError`. -/
def runToExcept (r : RetryRun α) : Except Err α :=
  match r.result with
  | .ok a => .ok a
  | .fatal e => .error e
  | .exhausted n last => .error ⟨retryErrMessage n last, none⟩

/-- `makeDiscogsRequest<T>(endpoint)`: the value returned or the error thrown. -/
def makeDiscogsRequest (hasTokens : Bool) (oracle : Nat → FetchOutcome β) :
    Except Err (Option β) :=
  runToExcept (makeDiscogsRequestRun hasTokens oracle)

/-- One price suggestion: `{currency, value}`. -/
structure PriceSuggestion where
  currency : String
  value : Rat
deriving DecidableEq, Repr

/-- `PriceSuggestionsResponse`: a JS object keyed by condition label, modelled
as an association list with unique keys (first match wins on lookup). -/
abbrev PriceSuggestions := List (String × PriceSuggestion)

/-- `fetchPriceSuggestions(releaseId)`: delegate to `makeDiscogsRequest`; a
caught error whose message contains the substring `"404"` is reinterpreted as
"no suggestions" (`null`); every other error is rethrown. -/
def fetchPriceSuggestions (hasTokens : Bool)
    (oracle : Nat → FetchOutcome PriceSuggestions) :
    Except Err (Option PriceSuggestions) :=
  match makeDiscogsRequest hasTokens oracle with
  | .ok v => .ok v
  | .error e => if strContains e.message "404" then .ok none else .error e

/-! ## Currency parsing — `parseValue` in `src/src/lib/syncLogic.ts` -/

/-- The longest leading run of decimal digits, and the rest. -/
def takeDigits : List Char → List Char × List Char
  | [] => ([], [])
  | c :: rest =>
    if c.isDigit then
      let (d, r) := takeDigits rest
      (c :: d, r)
    else ([], c :: rest)

/-- Digit characters to the number they denote. -/
def digitsToNat (ds : List Char) : Nat :=
  ds.foldl (fun acc c => acc * 10 + (c.toNat - 48)) 0

/-- The exponent suffix after `e`/`E`: optional sign then digits; an exponent
with no digits counts as 0 (`parseFloat("1e") = 1`). -/
def parseExp (cs : List Char) : Int :=
  let (esign, cs1) : Int × List Char :=
    match cs with
    | '-' :: r => (-1, r)
    | '+' :: r => (1, r)
    | _ => (1, cs)
  let (eds, _) := takeDigits cs1
  if eds = [] then 0 else esign * (digitsToNat eds : Int)

/-- JavaScript `parseFloat` on the decimal grammar it accepts here: leading
whitespace, optional sign, digits with an optional fraction, optional
`e`/`E` exponent; the longest valid prefix is taken and `NaN` (no number at
all) is `none`. (The `Infinity` literal never arises from the inputs below
and is not modelled.) -/
def parseFloatM (s : String) : Option Rat :=
  let cs := s.toList.dropWhile (fun c => c = ' ' || c = '\t' || c = '\n' || c = '\r')
  let (sign, cs1) : Rat × List Char :=
    match cs with
    | '-' :: rest => (-1, rest)
    | '+' :: rest => (1, rest)
    | _ => (1, cs)
  let (intds, cs2) := takeDigits cs1
  let (fracds, cs3) :=
    match cs2 with
    | '.' :: rest => takeDigits rest
    | _ => ([], cs2)
  if intds = [] && fracds = [] then none
  else
    let mantissa : Rat :=
      (digitsToNat intds : Rat) + (digitsToNat fracds : Rat) / ((10 : Rat) ^ fracds.length)
    let e : Int :=
      match cs3 with
      | 'e' :: rest => parseExp rest
      | 'E' :: rest => parseExp rest
      | _ => 0
    let scaled :=
      if 0 ≤ e then mantissa * (10 : Rat) ^ e.toNat
      else mantissa / (10 : Rat) ^ (-e).toNat
    some (sign * scaled)

/-- A character the first `replace` of `parseValue` deletes: the class
`[$,€£¥]` — note it contains the comma. -/
def isCurrencyStripped (c : Char) : Bool :=
  c = '$' || c = ',' || c = '€' || c = '£' || c = '¥'

/-- Drop the first `k` dots of the list, keeping everything else. -/
def removeFirstDots : Nat → List Char → List Char
  | _, [] => []
  | 0, cs => cs
  | k + 1, c :: cs =>
    if c = '.' then removeFirstDots k cs else c :: removeFirstDots (k + 1) cs

/-- The second `replace` of `parseValue`: a dot survives exactly when its
offset is `lastIndexOf(".")`, i.e. all dots but the last are removed. -/
def keepLastDot (cs : List Char) : List Char :=
  removeFirstDots (cs.count '.' - 1) cs

/-- `parseValue(valueStr)` of `runCollectionSync`: falsy input → null; strip
the `[$,€£¥]` class, keep only the last dot, turn remaining commas into dots
(none remain — the first replace already deleted every comma), `parseFloat`;
`NaN` → null. Never throws. -/
def parseValue (valueStr : Option String) : Option Rat :=
  match valueStr with
  | none => none
  | some v =>
    if v = "" then none
    else
      let step1 := v.toList.filter (fun c => !isCurrencyStripped c)
      let step2 := keepLastDot step1
      let step3 := step2.map (fun c => if c = ',' then '.' else c)
      parseFloatM (String.mk step3)

/-! ## Condition-fallback value resolution — `runCollectionSync` item loop -/

/-- The hard-coded preference order of `conditionOrder`. -/
def conditionOrder : List String :=
  ["Mint (M)", "Near Mint (NM or M-)", "Very Good Plus (VG+)", "Very Good (VG)",
   "Good Plus (G+)", "Good (G)", "Fair (F)", "Poor (P)"]

/-- The `for (condition of conditionOrder) { if (suggestions[condition]) ... break }`
loop: the value of the first listed condition present in the map. -/
def resolveGo (suggestions : PriceSuggestions) : List String → Option Rat
  | [] => none
  | c :: rest =>
    match suggestions.lookup c with
    | some s => some s.value
    | none => resolveGo suggestions rest

/-- The resolved `itemSuggestedValue` for a suggestions map. -/
def resolveSuggestedValue (suggestions : PriceSuggestions) : Option Rat :=
  resolveGo suggestions conditionOrder

/-! ## Settings store — `setSetting`/`getSetting` in `src/src/lib/db.ts` -/

/-- The `settings` table: key-value rows with unique keys. -/
abbrev Settings := List (String × String)

/-- `INSERT ... ON CONFLICT (key) DO UPDATE SET value`. -/
def setSetting (s : Settings) (key value : String) : Settings :=
  if s.any (fun p => p.1 = key) then
    s.map (fun p => if p.1 = key then (key, value) else p)
  else s ++ [(key, value)]

/-- `SELECT value FROM settings WHERE key = $1` (first row or null). -/
def getSetting (s : Settings) (key : String) : Option String :=
  s.lookup key

/-! ## Handshake-ticket storage — `src/src/lib/discogs/oauth.ts` -/

/-- The `/tmp/oauth-tokens` directory: one `<token>.json` file per request
token holding `{secret, expiresAt}`. -/
structure TicketStore where
  entries : List (String × String × Nat)
deriving DecidableEq, Repr

/-- The 15-minute expiry used by `getRequestToken`:
`Date.now() + 15 * 60 * 1000`. -/
def requestTokenTTL : Nat := 15 * 60 * 1000

/-- `storeRequestToken(token, secret, expiresAt)`: write (overwrite) the
token's file. -/
def storeRequestToken (st : TicketStore) (token secret : String)
    (expiresAt : Nat) : TicketStore :=
  ⟨(token, secret, expiresAt) :: st.entries.filter (fun e => !(e.1 = token))⟩

/-- `unlinkSync` of the token's file. -/
def removeTicket (st : TicketStore) (token : String) : TicketStore :=
  ⟨st.entries.filter (fun e => !(e.1 = token))⟩

/-- The token's stored `{secret, expiresAt}`, when its file exists. -/
def lookupTicket (st : TicketStore) (token : String) : Option (String × Nat) :=
  st.entries.lookup token

/-- `getRequestTokenSecret(token)` at time `now`: no file → null; expired
(`Date.now() > data.expiresAt`) → delete the file and return null; otherwise
the secret, file untouched. -/
def getRequestTokenSecret (now : Nat) (st : TicketStore) (token : String) :
    Option String × TicketStore :=
  match lookupTicket st token with
  | none => (none, st)
  | some (secret, expiresAt) =>
    if expiresAt < now then (none, removeTicket st token)
    else (some secret, st)

/-- The long-lived credential pair. -/
structure OAuthTokens where
  key : String
  secret : String
deriving DecidableEq, Repr

/-- `DiscogsOAuth.getAccessToken`: run the access-token exchange under the
retry policy (the exchange outcome per attempt is the oracle), then store the
obtained tokens in settings. Nothing here (nor in its caller) deletes the
request-token ticket from the store, so the ticket store passes through
unchanged. -/
def getAccessToken (exchange : Nat → Except Err OAuthTokens)
    (settings : Settings) (st : TicketStore) :
    Except Err OAuthTokens × Settings × TicketStore :=
  match runToExcept (withRetry createDiscogsRetryOptions exchange) with
  | .error e => (.error e, settings, st)
  | .ok tokens =>
    (.ok tokens,
     setSetting (setSetting settings "oauth_token" tokens.key)
       "oauth_token_secret" tokens.secret,
     st)

/-- Outcome of the OAuth callback route (`POST` handler of the callback). -/
inductive CallbackResult where
  | badRequest (error : String)
  | success
  | failure (error : String)
deriving DecidableEq, Repr

/-- The callback route: look up the stored request-token secret (absent or
expired → 400 "Request token not found or expired", caller must restart the
handshake); otherwise exchange it for the access token. -/
def oauthCallback (now : Nat) (requestToken : String)
    (exchange : Nat → Except Err OAuthTokens)
    (settings : Settings) (st : TicketStore) :
    CallbackResult × Settings × TicketStore :=
  match getRequestTokenSecret now st requestToken with
  | (none, st1) => (.badRequest "Request token not found or expired", settings, st1)
  | (some _, st1) =>
    match getAccessToken exchange settings st1 with
    | (.error e, settings1, st2) => (.failure e.message, settings1, st2)
    | (.ok _, settings1, st2) => (.success, settings1, st2)

/-! ## Collection data — the interfaces of `src/src/lib/syncLogic.ts` -/

/-- One `formats` entry of `basic_information`. -/
structure FormatInfo where
  name : String
  qty : String
  descriptions : Option (List String)
deriving DecidableEq, Repr

/-- `basic_information` of a collection release. `artists` keeps only the
names (the source reads nothing but `a.name`); `genres`/`styles` are optional
as in the interface; the other fields are carried as the strings/numbers the
item INSERT consumes. -/
structure BasicInfo where
  title : String
  year : Nat
  cover_image : String
  formats : List FormatInfo
  artists : List String
  genres : Option (List String)
  styles : Option (List String)
deriving DecidableEq, Repr

/-- One release of the collection listing. `basic_information` is optional and
`id = 0` stands for a falsy release id: the sync loop skips a release when
`!release || !release.basic_information || !release.id`. -/
structure Release where
  id : Nat
  instance_id : Nat
  folder_id : Nat
  rating : Nat
  date_added : String
  basic_information : Option BasicInfo
deriving DecidableEq, Repr

/-- One row of `collection_items` (the INSERT's column list). -/
structure ItemRow where
  id : Nat
  release_id : Nat
  artist : String
  title : String
  year : Option Nat
  format : Option String
  genres : List String
  styles : List String
  cover_image_url : Option String
  added_date : String
  folder_id : Nat
  rating : Nat
  notes : Option String
  condition : Option String
  suggested_value : Option Rat
  last_value_check : Option String
deriving DecidableEq, Repr

/-- One row of `collection_stats_history`. -/
structure Snapshot where
  timestamp : String
  total_items : Nat
  value_min : Option Rat
  value_mean : Option Rat
  value_max : Option Rat
deriving DecidableEq, Repr

/-- The two tables the sync transaction writes. -/
structure DB where
  items : List ItemRow
  history : List Snapshot
deriving DecidableEq, Repr

/-- The `DiscogsCollectionValue` response: locale-formatted currency strings. -/
structure CollValue where
  minimum : String
  median : String
  maximum : String
deriving DecidableEq, Repr

/-- `str || fallback` on a JavaScript string (empty is falsy). -/
def strOr (s fallback : String) : String :=
  if s = "" then fallback else s

/-- `n || null` on a JavaScript number (0 is falsy). -/
def natOrNull (n : Nat) : Option Nat :=
  if n = 0 then none else some n

/-- `s || null` on a JavaScript string. -/
def strOrNull (s : String) : Option String :=
  if s = "" then none else some s

/-- `basicInfo.artists?.map(a => a.name).join(", ") || "Unknown Artist"`. -/
def artistStr (artists : List String) : String :=
  strOr (String.intercalate ", " artists) "Unknown Artist"

/-- One `${f.qty} x ${f.name}` entry, with the optional descriptions suffix. -/
def formatEntry (f : FormatInfo) : String :=
  f.qty ++ " x " ++ f.name ++
    (match f.descriptions with
     | some ds => " (" ++ String.intercalate ", " ds ++ ")"
     | none => "")

/-- `basicInfo.formats?.map(...).join("; ") || null`. -/
def formatStr (formats : List FormatInfo) : Option String :=
  strOrNull (String.intercalate "; " (formats.map formatEntry))

/-- The outcome of one `fetchPriceSuggestions(release.id)` call as the sync
loop observes it: the returned map (or null), or the thrown error. -/
abbrev PriceResult := Except Err (Option PriceSuggestions)

/-- The row the sync loop inserts for a valid release: the price-fetch
outcome decides `suggested_value` and `last_value_check` (a thrown lookup is
caught, leaving both null; a null map leaves the value null but stamps the
check time; a returned map goes through the condition fallback). -/
def mkItemRow (now : String) (pr : PriceResult) (r : Release) (bi : BasicInfo) :
    ItemRow :=
  let vc : Option Rat × Option String :=
    match pr with
    | .error _ => (none, none)
    | .ok none => (none, some now)
    | .ok (some m) => (resolveSuggestedValue m, some now)
  { id := r.instance_id
    release_id := r.id
    artist := artistStr bi.artists
    title := strOr bi.title "Unknown Title"
    year := natOrNull bi.year
    format := formatStr bi.formats
    genres := bi.genres.getD []
    styles := bi.styles.getD []
    cover_image_url := strOrNull bi.cover_image
    added_date := r.date_added
    folder_id := r.folder_id
    rating := r.rating
    notes := none
    condition := none
    suggested_value := vc.1
    last_value_check := vc.2 }

/-- `INSERT ... ON CONFLICT (id) DO UPDATE`: replace the row with the same
`id` (the collection instance id), else append. -/
def upsertItem (items : List ItemRow) (it : ItemRow) : List ItemRow :=
  if items.any (fun x => x.id = it.id) then
    items.map (fun x => if x.id = it.id then it else x)
  else items ++ [it]

/-- All upserts of a run, in order. -/
def upsertAll (items : List ItemRow) (rows : List ItemRow) : List ItemRow :=
  rows.foldl upsertItem items

/-! ## Pagination — the `while (nextUrl)` loop of `runCollectionSync` -/

/-- A `pagination.urls.next` reference: either a URL `new URL(...)` parses
(its path+query feeds the next request) or one it throws on (pagination
stops, logged). -/
inductive NextRef where
  | parsable
  | malformed
deriving DecidableEq, Repr

/-- One collection page response: the `releases` array when present
(`response && response.releases`), and the optional continuation reference. -/
structure Page where
  releases : Option (List (Option Release))
  next : Option NextRef
deriving DecidableEq, Repr

/-- The pagination loop over the server's successive page outcomes: each
consumed outcome is one network call; a thrown fetch aborts with the error; a
missing or malformed next reference ends the loop. Returns the accumulated
releases and the number of calls made. -/
def fetchPagesGo : List (Except String Page) → Except String (List (Option Release)) × Nat
  | [] => (.ok [], 0)
  | o :: rest =>
    match o with
    | .error e => (.error e, 1)
    | .ok p =>
      let rels := p.releases.getD []
      match p.next with
      | some .parsable =>
        let (r, c) := fetchPagesGo rest
        (r.map (rels ++ ·), c + 1)
      | _ => (.ok rels, 1)

/-! ## Sync Orchestrator — `runCollectionSync` -/

/-- The run's environment: configuration plus one oracle per kind of network
interaction, the timestamp, and the point (0-based count of DB statements
inside the transaction: the DELETE, then one INSERT per processed item, then
the snapshot INSERT) at which the database fails, if any. -/
structure RunEnv where
  username : Option String
  pages : List (Except String Page)
  valueOutcome : Except String CollValue
  priceOutcome : Nat → PriceResult
  now : String
  txnFault : Option Nat

/-- The persistent state a run touches: the two tables, the settings rows, and
a count of outbound network calls made so far. -/
structure SyncState where
  db : DB
  settings : Settings
  calls : Nat
deriving DecidableEq, Repr

/-- `!username` check (`undefined` and the empty string are falsy). -/
def usernameOk : Option String → Bool
  | none => false
  | some u => !(u = "")

/-- The error message for a missing username. -/
def syncMissingUsernameMsg : String :=
  "Sync failed: DISCOGS_USERNAME environment variable not set."

/-- The running state threaded through the item loop inside the transaction:
staged item rows, settings, calls made, index of the next DB statement, and
the processed-item counter. -/
structure LoopState where
  items : List ItemRow
  settings : Settings
  calls : Nat
  qIdx : Nat
  processed : Nat

/-- The `for (const release of allReleases)` body: bump and publish the
progress counter, skip invalid releases, fetch the price suggestions (one
network call; a thrown fetch is caught into a null value), then run the item
INSERT — which aborts the transaction when the database fails there. Returns
the final loop state and whether a statement faulted. -/
def syncLoop (env : RunEnv) : List (Option Release) → LoopState → LoopState × Bool
  | [], st => (st, false)
  | r :: rest, st =>
    let processed := st.processed + 1
    let settings := setSetting st.settings "sync_current_item" (toString processed)
    match r with
    | none => syncLoop env rest ⟨st.items, settings, st.calls, st.qIdx, processed⟩
    | some rel =>
      match rel.basic_information with
      | none => syncLoop env rest ⟨st.items, settings, st.calls, st.qIdx, processed⟩
      | some bi =>
        if rel.id = 0 then
          syncLoop env rest ⟨st.items, settings, st.calls, st.qIdx, processed⟩
        else
          let calls := st.calls + 1
          let row := mkItemRow env.now (env.priceOutcome rel.id) rel bi
          if env.txnFault = some st.qIdx then
            (⟨st.items, settings, calls, st.qIdx, processed⟩, true)
          else
            syncLoop env rest
              ⟨upsertItem st.items row, settings, calls, st.qIdx + 1, processed⟩

/-- What the transaction produced: the new database when it committed (`none`
after a ROLLBACK), plus the settings rows and network calls — both written
outside the transaction, so they survive a rollback. -/
structure TxnOut where
  newDb : Option DB
  settings : Settings
  calls : Nat

/-- The `db.transaction` body of the run over the staged releases (plus the
BEGIN/COMMIT/ROLLBACK discipline of the `db.ts` transaction helper): DELETE
the prior item set (statement 0), insert the new rows, append the snapshot
whose `total_items` is the fetched release count and whose aggregate values
come from `parseValue` over the value response. A database fault at any
statement rolls the whole transaction back, leaving the prior tables. -/
def syncTransaction (env : RunEnv) (allReleases : List (Option Release))
    (valueResponse : Option CollValue) (db : DB) (settings : Settings)
    (calls : Nat) : TxnOut :=
  if env.txnFault = some 0 then ⟨none, settings, calls⟩
  else
    match syncLoop env allReleases ⟨[], settings, calls, 1, 0⟩ with
    | (st, true) => ⟨none, st.settings, st.calls⟩
    | (st, false) =>
      if env.txnFault = some st.qIdx then ⟨none, st.settings, st.calls⟩
      else
        ⟨some
          ⟨st.items,
           db.history ++
             [⟨env.now, allReleases.length,
               parseValue (valueResponse.map (fun v => v.minimum)),
               parseValue (valueResponse.map (fun v => v.median)),
               parseValue (valueResponse.map (fun v => v.maximum))⟩]⟩,
         st.settings, st.calls⟩

/-- The `valueResponse` a run ends up with: the fetched aggregate value, or
null when that fetch threw (the run continues either way). -/
def valueResponseOf (env : RunEnv) : Option CollValue :=
  match env.valueOutcome with
  | .ok v => some v
  | .error _ => none

/-- The body of `runCollectionSync` up to its outer catch: publish the running
status, validate the username (failing before any network call), walk the
pages, publish the total, fetch the aggregate value (its failure only leaves
the response null), then run the transaction; set `idle` on success. Returns
the item count or the thrown error's message, with the resulting state. -/
def runCollectionSyncInner (env : RunEnv) (s : SyncState) :
    Except String Nat × SyncState :=
  let settings :=
    setSetting (setSetting (setSetting (setSetting s.settings
      "sync_status" "running") "sync_current_item" "0")
      "sync_total_items" "0") "sync_last_error" ""
  if usernameOk env.username then
    let fetched := fetchPagesGo env.pages
    let calls := s.calls + fetched.2
    match fetched.1 with
    | .error e => (.error e, ⟨s.db, settings, calls⟩)
    | .ok allReleases =>
      let settings := setSetting settings "sync_total_items" (toString allReleases.length)
      let calls := calls + 1
      let t := syncTransaction env allReleases (valueResponseOf env) s.db settings calls
      match t.newDb with
      | none => (.error "database query failed", ⟨s.db, t.settings, t.calls⟩)
      | some db =>
        (.ok allReleases.length,
         ⟨db, setSetting t.settings "sync_status" "idle", t.calls⟩)
  else
    (.error syncMissingUsernameMsg,
     ⟨s.db,
      setSetting (setSetting settings "sync_status" "error")
        "sync_last_error" syncMissingUsernameMsg,
      s.calls⟩)

/-- `runCollectionSync` with its outer catch: any thrown error sets the error
status and the last-error message before re-throwing to the caller. -/
def runCollectionSync (env : RunEnv) (s : SyncState) :
    Except String Nat × SyncState :=
  match runCollectionSyncInner env s with
  | (.ok n, s1) => (.ok n, s1)
  | (.error e, s1) =>
    (.error e,
     ⟨s1.db,
      setSetting (setSetting s1.settings "sync_status" "error") "sync_last_error" e,
      s1.calls⟩)

/-- The rows a release list yields: one per release that passes the validity
check, built by `mkItemRow`. -/
def validRows (env : RunEnv) (rs : List (Option Release)) : List ItemRow :=
  rs.filterMap fun r =>
    match r with
    | none => none
    | some rel =>
      match rel.basic_information with
      | none => none
      | some bi =>
        if rel.id = 0 then none
        else some (mkItemRow env.now (env.priceOutcome rel.id) rel bi)

/-! ## General lemmas about the embedded operations -/

theorem lookup_cons_self {β : Type} (k : String) (v : β) (t : List (String × β)) :
    List.lookup k ((k, v) :: t) = some v := by
  simp [List.lookup]

theorem lookup_cons_ne {β : Type} (k a : String) (v : β) (t : List (String × β))
    (h : ¬ k = a) : List.lookup k ((a, v) :: t) = List.lookup k t := by
  have hb : (k == a) = false := beq_eq_false_iff_ne.mpr h
  simp [List.lookup, hb]

theorem lookup_upd (k k' v : String) :
    ∀ s : Settings,
      List.lookup k (s.map (fun p => if p.1 = k' then (k', v) else p)) =
        if k = k' then (if s.any (fun p => p.1 = k') then some v else none)
        else List.lookup k s := by
  intro s
  induction s with
  | nil => simp [List.lookup]
  | cons a t ih =>
    obtain ⟨a1, a2⟩ := a
    simp only [List.map_cons, List.any_cons]
    by_cases ha : a1 = k'
    · rw [if_pos ha]
      by_cases hk : k = k'
      · subst hk
        rw [lookup_cons_self, if_pos rfl, if_pos (by simp [ha])]
      · have h2 : ¬ k = a1 := fun hh => hk (hh.trans ha)
        rw [lookup_cons_ne k k' v _ hk, ih, if_neg hk, if_neg hk,
          lookup_cons_ne k a1 a2 t h2]
    · rw [if_neg ha]
      by_cases hka : k = a1
      · subst hka
        rw [lookup_cons_self, if_neg (by simpa using ha), lookup_cons_self]
      · rw [lookup_cons_ne k a1 a2 _ hka, ih]
        by_cases hk : k = k'
        · have hor : (decide (a1 = k') || t.any fun p => decide (p.1 = k')) =
              (t.any fun p => decide (p.1 = k')) := by simp [ha]
          rw [if_pos hk, if_pos hk]
          simp only [hor]
        · rw [if_neg hk, if_neg hk, lookup_cons_ne k a1 a2 t hka]

theorem lookup_append_or (k : String) (t : Settings) :
    ∀ s : Settings,
      List.lookup k (s ++ t) = (List.lookup k s).or (List.lookup k t) := by
  intro s
  induction s with
  | nil => simp [List.lookup]
  | cons a t2 ih =>
    obtain ⟨a1, a2⟩ := a
    by_cases hka : k = a1
    · subst hka
      rw [List.cons_append, lookup_cons_self, lookup_cons_self]
      rfl
    · rw [List.cons_append, lookup_cons_ne k a1 a2 _ hka,
        lookup_cons_ne k a1 a2 t2 hka, ih]

theorem lookup_none_of_not_any (k : String) :
    ∀ s : Settings, s.any (fun p => p.1 = k) = false → List.lookup k s = none := by
  intro s
  induction s with
  | nil => intro _; simp [List.lookup]
  | cons a t ih =>
    obtain ⟨a1, a2⟩ := a
    intro h
    simp only [List.any_cons, Bool.or_eq_false_iff, decide_eq_false_iff_not] at h
    rw [lookup_cons_ne k a1 a2 t (fun hh => h.1 hh.symm), ih (by simp [h.2])]

theorem getSetting_set (s : Settings) (k k' v : String) :
    getSetting (setSetting s k' v) k = if k = k' then some v else getSetting s k := by
  unfold getSetting setSetting
  split
  case isTrue h =>
    rw [lookup_upd]
    by_cases hk : k = k'
    · rw [if_pos hk, if_pos hk, if_pos (hk ▸ h)]
    · rw [if_neg hk, if_neg hk]
  case isFalse h =>
    rw [lookup_append_or]
    by_cases hk : k = k'
    · subst hk
      rw [lookup_none_of_not_any k s (Bool.eq_false_iff.mpr h),
        lookup_cons_self, if_pos rfl]
      rfl
    · rw [lookup_cons_ne k k' v [] hk, if_neg hk]
      cases List.lookup k s <;> rfl

theorem getSetting_set_self (s : Settings) (k v : String) :
    getSetting (setSetting s k v) k = some v := by
  rw [getSetting_set, if_pos rfl]

theorem getSetting_set_ne (s : Settings) (k k' v : String) (h : ¬ k = k') :
    getSetting (setSetting s k' v) k = getSetting s k := by
  rw [getSetting_set, if_neg h]

theorem lookup_filter_self_ne {β : Type} (k : String) :
    ∀ l : List (String × β),
      List.lookup k (l.filter (fun e => !(e.1 = k))) = none := by
  intro l
  induction l with
  | nil => simp [List.lookup]
  | cons a t ih =>
    obtain ⟨a1, a2⟩ := a
    by_cases ha : a1 = k
    · simpa [List.filter_cons, ha] using ih
    · rw [List.filter_cons]
      have hc : (!decide ((a1, a2).1 = k)) = true := by simp [ha]
      rw [if_pos hc, lookup_cons_ne k a1 a2 _ (fun hh => ha hh.symm), ih]

theorem resolveGo_none (m : PriceSuggestions) :
    ∀ l : List String, (∀ c ∈ l, m.lookup c = none) → resolveGo m l = none := by
  intro l
  induction l with
  | nil => intro _; rfl
  | cons c rest ih =>
    intro h
    simp only [resolveGo, h c (List.mem_cons_self c rest)]
    exact ih (fun c' hc' => h c' (List.mem_cons_of_mem c hc'))

theorem resolveGo_first (m : PriceSuggestions) :
    ∀ (pre : List String) (c : String) (post : List String) (s : PriceSuggestion),
      (∀ c' ∈ pre, m.lookup c' = none) → m.lookup c = some s →
      resolveGo m (pre ++ c :: post) = some s.value := by
  intro pre
  induction pre with
  | nil =>
    intro c post s _ hc
    simp only [List.nil_append, resolveGo, hc]
  | cons p pre ih =>
    intro c post s h hc
    simp only [List.cons_append, resolveGo, h p (List.mem_cons_self p pre)]
    exact ih c post s (fun c' hc' => h c' (List.mem_cons_of_mem p hc')) hc

section ClaimProofs

attribute [local semireducible] Rat.mul Rat.add Rat.sub Rat.inv Rat.ofScientific

/-! ## Claim C1 — locale currency parsing -/

/-- C1: `parseValue` on the spec's two locale examples and on unparsable/falsy
inputs. The decimal-dot example parses as claimed and bad input yields null,
but the decimal-comma example `"€1.234,56"` evaluates to `1.23456`, not the
`1234.56` the claim states: the first `replace` deletes the comma (its
character class `[$,€£¥]` contains `,`), so the decimal comma is gone before
the decimal-separator logic runs. -/
theorem C1_parseValue_locale_eval :
    parseValue (some "$1,234.56") = some (1234.56 : Rat) ∧
    parseValue (some "€1.234,56") = some (1.23456 : Rat) ∧
    (1.23456 : Rat) ≠ (1234.56 : Rat) ∧
    parseValue none = none ∧
    parseValue (some "") = none ∧
    parseValue (some "N/A") = none := by
  refine ⟨by decide, by decide, by decide, rfl, by decide, by decide⟩

/-! ## Claim C5 — condition-fallback resolution -/

/-- C5: the condition fallback returns the value of the first condition of
`conditionOrder` present in the suggestions map — `20` for the
Good+Mint example, `none` for the empty map and for any map containing none
of the listed conditions; in general, whenever `conditionOrder` splits as
`pre ++ c :: post` with every condition of `pre` absent and `c` present, the
result is `c`'s value. -/
theorem C5_condition_fallback :
    resolveSuggestedValue [("Good (G)", ⟨"USD", 5⟩), ("Mint (M)", ⟨"USD", 20⟩)]
      = some 20 ∧
    resolveSuggestedValue [] = none ∧
    (∀ m : PriceSuggestions,
      (∀ c ∈ conditionOrder, m.lookup c = none) → resolveSuggestedValue m = none) ∧
    (∀ (m : PriceSuggestions) (pre : List String) (c : String) (post : List String)
        (s : PriceSuggestion),
      conditionOrder = pre ++ c :: post →
      (∀ c' ∈ pre, m.lookup c' = none) → m.lookup c = some s →
      resolveSuggestedValue m = some s.value) := by
  refine ⟨by decide, rfl, ?_, ?_⟩
  · intro m h
    exact resolveGo_none m conditionOrder h
  · intro m pre c post s hco h hc
    unfold resolveSuggestedValue
    rw [hco]
    exact resolveGo_first m pre c post s h hc

/-! ## Claim C10 — the "404" classification is a substring match -/

/-- C10: whenever the underlying request ends in an error whose message
contains `"404"` anywhere — whatever the actual failure was —
`fetchPriceSuggestions` swallows it and returns the "no data" result. -/
theorem C10_price_404_substring (hasTokens : Bool)
    (oracle : Nat → FetchOutcome PriceSuggestions) (e : Err)
    (h1 : makeDiscogsRequest hasTokens oracle = .error e)
    (h2 : strContains e.message "404" = true) :
    fetchPriceSuggestions hasTokens oracle = .ok none := by
  unfold fetchPriceSuggestions
  rw [h1]
  simp [h2]

/-- A server that always answers 500 with a body that happens to mention
`40400` — no 404 response is ever produced. -/
def oracle500 : Nat → FetchOutcome PriceSuggestions :=
  fun _ => .httpError ⟨500, "Internal Server Error", "release 40400 is gone", none⟩

/-- Witness for C10: after the 500s exhaust the retries, the wrapping
retry-exhaustion message contains `"40400"`, so the substring check fires and
the 5xx failure is misread as "no data". -/
theorem C10_price_404_substring_witness :
    fetchPriceSuggestions true oracle500 = .ok none :=
  C10_price_404_substring true oracle500
    ⟨"Operation failed after 9 attempts: Discogs API request failed: 500 Internal Server Error - release 40400 is gone",
      none⟩
    (by decide) (by decide)

/-! ## Claim C3 — rate-limit delay vs the server's Retry-After hint -/

/-- C3 amended: when a retried operation fails with an error classified as
rate limiting, the delay `withRetry` waits before the next attempt is
`max(current_backoff_delay, 5000 ms)` — a fixed 5-second floor, independent
of any server-supplied Retry-After value (which never reaches the retry
engine): the base delay at the first attempt, and the current computed delay
at any later attempt with retries remaining. -/
theorem C3_rate_limit_fixed_floor {α : Type} (p : RetryPolicy)
    (op : Nat → Except Err α) (e : Err)
    (h1 : op 1 = .error e) (h2 : p.retryCondition e = true)
    (h3 : isRateLimitErr e = true) (h4 : 1 ≤ p.maxRetries) :
    (withRetry p op).sleeps.head? = some (max p.baseDelay 5000) ∧
    (5000 : Rat) ≤ max p.baseDelay 5000 ∧
    (∀ (attempt : Nat) (delay : Rat) (r : Nat) (e2 : Err),
      op attempt = .error e2 → p.retryCondition e2 = true →
      isRateLimitErr e2 = true →
      (withRetryGo p op attempt delay (r + 2)).sleeps.head? =
        some (max delay 5000)) := by
  refine ⟨?_, le_max_right _ _, ?_⟩
  · unfold withRetry
    obtain ⟨k, hk⟩ : ∃ k, p.maxRetries = k + 1 := ⟨p.maxRetries - 1, by omega⟩
    rw [hk]
    show (withRetryGo p op 1 p.baseDelay (k + 1 + 1)).sleeps.head? = _
    unfold withRetryGo
    rw [h1]
    simp [h2, h3]
  · intro attempt delay r e2 g1 g2 g3
    unfold withRetryGo
    rw [g1]
    simp [g2, g3]

/-- An operation that is rate limited once and then succeeds. -/
def opRateLimited : Nat → Except Err Unit :=
  fun n =>
    if n = 1 then .error ⟨"Discogs API request failed: 429 Too Many Requests - ", none⟩
    else .ok ()

/-- Witness for the amended C3: with the Discogs policy (2 s base delay) the
single observed delay is `max 2000 5000 = 5000` ms. -/
theorem C3_rate_limit_fixed_floor_witness :
    (withRetry createDiscogsRetryOptions opRateLimited).sleeps.head? =
      some (max createDiscogsRetryOptions.baseDelay 5000) ∧
    (5000 : Rat) ≤ max createDiscogsRetryOptions.baseDelay 5000 ∧
    (∀ (attempt : Nat) (delay : Rat) (r : Nat) (e2 : Err),
      opRateLimited attempt = .error e2 →
      createDiscogsRetryOptions.retryCondition e2 = true →
      isRateLimitErr e2 = true →
      (withRetryGo createDiscogsRetryOptions opRateLimited attempt delay
        (r + 2)).sleeps.head? = some (max delay 5000)) :=
  C3_rate_limit_fixed_floor createDiscogsRetryOptions opRateLimited
    ⟨"Discogs API request failed: 429 Too Many Requests - ", none⟩
    (by decide) (by decide) (by decide) (by decide)

/-- A 429 response whose `Retry-After` header says 10 seconds, then success. -/
def oracle429 : Nat → FetchOutcome Unit :=
  fun n =>
    if n = 1 then .httpError ⟨429, "Too Many Requests", "", some 10⟩
    else .success ()

/-- Counterexample for C3 as stated: the server supplies a Retry-After hint of
`S = 10` seconds, yet the delay before the next attempt is 5000 ms
(`max(computed 2000, fixed 5000)`), which is less than `S * 1000` — the hint
never reaches `withRetry`, so the claimed
`max(computed_delay, S * 1000 + buffer)` floor does not hold. -/
theorem C3_retry_after_ignored_cex :
    oracle429 1 = .httpError ⟨429, "Too Many Requests", "", some 10⟩ ∧
    (makeDiscogsRequestRun true oracle429).sleeps = [5000] ∧
    (makeDiscogsRequestRun true oracle429).result = .ok (some ()) ∧
    ¬ ((10 * 1000 : Rat) ≤ 5000) := by
  refine ⟨rfl, by decide, by decide, by decide⟩

/-! ## Claim C8 — fatal errors and the final attempt -/

/-- C8 amended: an error the retry predicate classifies as non-retryable is
re-thrown immediately and unchanged — no sleep, no further attempt — at any
attempt with at least two loop iterations left (attempts `1..maxRetries`);
but on the final attempt (`maxRetries + 1`, one iteration left) every error,
retryable or not, is wrapped into the retries-exhausted `RetryError` instead
of being re-thrown unchanged. -/
theorem C8_fatal_rethrow_before_last {α : Type} (p : RetryPolicy)
    (op : Nat → Except Err α) (e : Err) :
    (∀ attempt delay r, op attempt = .error e → p.retryCondition e = false →
      withRetryGo p op attempt delay (r + 2) = ⟨.fatal e, [], 1⟩) ∧
    (∀ delay, op (p.maxRetries + 1) = .error e →
      withRetryGo p op (p.maxRetries + 1) delay 1 =
        ⟨.exhausted (p.maxRetries + 1) e, [], 1⟩) ∧
    (op 1 = .error e → p.retryCondition e = false → 1 ≤ p.maxRetries →
      withRetry p op = ⟨.fatal e, [], 1⟩) ∧
    (op 1 = .error e → p.maxRetries = 0 →
      withRetry p op = ⟨.exhausted 1 e, [], 1⟩) := by
  refine ⟨?_, ?_, ?_, ?_⟩
  · intro attempt delay r h1 h2
    unfold withRetryGo
    rw [h1]
    simp [h2]
  · intro delay h1
    unfold withRetryGo
    rw [h1]
    simp
  · intro h1 h2 h4
    unfold withRetry
    obtain ⟨k, hk⟩ : ∃ k, p.maxRetries = k + 1 := ⟨p.maxRetries - 1, by omega⟩
    rw [hk]
    show withRetryGo p op 1 p.baseDelay (k + 1 + 1) = _
    unfold withRetryGo
    rw [h1]
    simp [h2]
  · intro h1 hm
    unfold withRetry
    rw [hm]
    show withRetryGo p op 1 p.baseDelay 1 = _
    unfold withRetryGo
    rw [h1]
    simp [hm]

/-- A rate-limited error for the first eight attempts. -/
def rateErr : Err := ⟨"Discogs API request failed: 429 Too Many Requests - slow down", none⟩

/-- A non-retryable (OAuth) error. -/
def fatalTokenErr : Err :=
  ⟨"Discogs API request failed: 401 Unauthorized - invalid access token provided", none⟩

/-- Rate limited on attempts 1–8, then a fatal error on the final attempt 9. -/
def opFatalLast : Nat → Except Err Unit :=
  fun n => if n ≤ 8 then .error rateErr else .error fatalTokenErr

/-- Counterexample for C8 as stated: with the Discogs policy
(`maxRetries = 8`), a non-retryable error occurring at attempt
`maxRetries + 1 = 9` is not re-thrown unchanged — it comes back wrapped in the
retries-exhausted error, because the final-attempt break precedes the
retryability check. -/
theorem C8_final_attempt_wrapped_cex :
    discogsRetryCondition fatalTokenErr = false ∧
    opFatalLast 9 = .error fatalTokenErr ∧
    (withRetry createDiscogsRetryOptions opFatalLast).result =
      .exhausted 9 fatalTokenErr ∧
    (withRetry createDiscogsRetryOptions opFatalLast).result ≠ .fatal fatalTokenErr ∧
    (withRetry createDiscogsRetryOptions opFatalLast).attemptsMade = 9 := by
  refine ⟨by decide, by decide, by decide, by decide, by decide⟩

/-! ## Claim C9 — handshake-ticket lifecycle -/

/-- When the lookup finds a secret, the store comes back untouched (the file
is only deleted on the expired path). -/
theorem getRequestTokenSecret_some_store (now : Nat) (st : TicketStore)
    (token : String) (osec : Option String) (stout : TicketStore)
    (h : getRequestTokenSecret now st token = (osec, stout)) (hs : osec.isSome) :
    stout = st := by
  unfold getRequestTokenSecret at h
  rcases hlk : lookupTicket st token with _ | ⟨secret, expiresAt⟩
  · simp only [hlk] at h
    exact (Prod.mk.injEq .. ▸ h).2.symm
  · simp only [hlk] at h
    by_cases hex : expiresAt < now
    · rw [if_pos hex] at h
      obtain ⟨h1, _⟩ := Prod.mk.injEq .. ▸ h
      rw [← h1] at hs
      simp at hs
    · rw [if_neg hex] at h
      exact (Prod.mk.injEq .. ▸ h).2.symm

/-- `getAccessToken` never touches the request-token store. -/
theorem getAccessToken_store (exchange : Nat → Except Err OAuthTokens)
    (settings : Settings) (st : TicketStore) :
    (getAccessToken exchange settings st).2.2 = st := by
  unfold getAccessToken
  rcases runToExcept (withRetry createDiscogsRetryOptions exchange) with e | t <;> rfl

/-- C9 amended: a handshake ticket is time-limited but not single-use. Once
its expiry has passed, a lookup returns nothing and deletes it (so every later
lookup returns nothing too) — in particular a ticket stored with the 15-minute
TTL is gone after that TTL. But a successful access-token exchange leaves the
ticket store unchanged: looking the same ticket up again after the exchange,
at any time not past its expiry, still returns the stored secret, so the
ticket is not discarded by the exchange. -/
theorem C9_ticket_lifecycle :
    (∀ (now : Nat) (st : TicketStore) (token secret : String) (expiresAt : Nat),
      lookupTicket st token = some (secret, expiresAt) → expiresAt < now →
      getRequestTokenSecret now st token = (none, removeTicket st token) ∧
      ∀ now2, (getRequestTokenSecret now2 (removeTicket st token) token).1 = none) ∧
    (∀ (st : TicketStore) (token secret : String) (t0 now : Nat),
      t0 + requestTokenTTL < now →
      (getRequestTokenSecret now
        (storeRequestToken st token secret (t0 + requestTokenTTL)) token).1 = none) ∧
    (∀ (now : Nat) (token : String) (exchange : Nat → Except Err OAuthTokens)
        (settings : Settings) (st : TicketStore),
      (oauthCallback now token exchange settings st).1 = .success →
      (oauthCallback now token exchange settings st).2.2 = st) ∧
    (∀ (now : Nat) (token : String) (exchange : Nat → Except Err OAuthTokens)
        (settings : Settings) (st : TicketStore) (secret : String)
        (expiresAt now2 : Nat),
      lookupTicket st token = some (secret, expiresAt) →
      (oauthCallback now token exchange settings st).1 = .success →
      ¬ expiresAt < now2 →
      (getRequestTokenSecret now2 (oauthCallback now token exchange settings st).2.2
        token).1 = some secret) := by
  have hremoved : ∀ (st : TicketStore) (token : String) (now2 : Nat),
      (getRequestTokenSecret now2 (removeTicket st token) token).1 = none := by
    intro st token now2
    unfold getRequestTokenSecret
    have hl : lookupTicket (removeTicket st token) token = none := by
      unfold lookupTicket removeTicket
      exact lookup_filter_self_ne token st.entries
    rw [hl]
  have hstore : ∀ (now : Nat) (token : String)
      (exchange : Nat → Except Err OAuthTokens) (settings : Settings)
      (st : TicketStore),
      (oauthCallback now token exchange settings st).1 = .success →
      (oauthCallback now token exchange settings st).2.2 = st := by
    intro now token exchange settings st
    unfold oauthCallback
    rcases hg : getRequestTokenSecret now st token with ⟨osec, stout⟩
    cases osec with
    | none => intro h; simp at h
    | some sec =>
      intro _
      have hst : stout = st :=
        getRequestTokenSecret_some_store now st token (some sec) stout hg rfl
      subst hst
      rcases ha : getAccessToken exchange settings stout with ⟨res, settings1, st2⟩
      have hst2 : st2 = stout := by
        have hx := getAccessToken_store exchange settings stout
        rw [ha] at hx
        exact hx
      subst hst2
      cases res with
      | error e => simp [ha]
      | ok t => simp [ha]
  refine ⟨?_, ?_, hstore, ?_⟩
  · intro now st token secret expiresAt hlk hex
    constructor
    · unfold getRequestTokenSecret
      simp only [hlk]
      rw [if_pos hex]
    · exact hremoved st token
  · intro st token secret t0 now hex
    unfold getRequestTokenSecret
    have hl : lookupTicket (storeRequestToken st token secret (t0 + requestTokenTTL))
        token = some (secret, t0 + requestTokenTTL) := by
      unfold lookupTicket storeRequestToken
      exact lookup_cons_self token _ _
    simp only [hl]
    rw [if_pos hex]
  · intro now token exchange settings st secret expiresAt now2 hlk hsucc hnot
    rw [hstore now token exchange settings st hsucc]
    unfold getRequestTokenSecret
    simp only [hlk]
    rw [if_neg hnot]

/-- An access-token exchange that succeeds at once. -/
def exchangeOK : Nat → Except Err OAuthTokens :=
  fun _ => .ok ⟨"access-key", "access-secret"⟩

/-- One stored handshake ticket, expiring at time 1000. -/
def ticketStore0 : TicketStore := ⟨[("req-token", "req-secret", 1000)]⟩

/-- Counterexample for C9 as stated: the callback at time 10 exchanges the
ticket successfully, yet a lookup of the same ticket at time 20 — after the
successful exchange, before the TTL — still returns the stored secret instead
of nothing: the ticket is not discarded after a successful exchange. -/
theorem C9_ticket_survives_exchange_cex :
    (oauthCallback 10 "req-token" exchangeOK [] ticketStore0).1 = .success ∧
    (getRequestTokenSecret 20
      (oauthCallback 10 "req-token" exchangeOK [] ticketStore0).2.2
      "req-token").1 = some "req-secret" ∧
    some "req-secret" ≠ (none : Option String) := by
  refine ⟨by decide, by decide, by decide⟩

/-! ## Claim C7 — missing username -/

/-- C7: with no configured username the run immediately records the error
status and the descriptive message, throws that message to the caller, and
makes no outbound network call (and no database-table change). -/
theorem C7_missing_username (env : RunEnv) (s : SyncState)
    (h : env.username = none) :
    (runCollectionSync env s).1 = .error syncMissingUsernameMsg ∧
    getSetting (runCollectionSync env s).2.settings "sync_status" = some "error" ∧
    getSetting (runCollectionSync env s).2.settings "sync_last_error" =
      some syncMissingUsernameMsg ∧
    (runCollectionSync env s).2.calls = s.calls ∧
    (runCollectionSync env s).2.db = s.db := by
  have hinner : runCollectionSyncInner env s =
      (.error syncMissingUsernameMsg,
       ⟨s.db,
        setSetting (setSetting
          (setSetting (setSetting (setSetting (setSetting s.settings
            "sync_status" "running") "sync_current_item" "0")
            "sync_total_items" "0") "sync_last_error" "")
          "sync_status" "error") "sync_last_error" syncMissingUsernameMsg,
        s.calls⟩) := by
    unfold runCollectionSyncInner
    rw [h]
    rfl
  have hrun : runCollectionSync env s =
      (.error syncMissingUsernameMsg,
       ⟨s.db,
        setSetting (setSetting (setSetting (setSetting
          (setSetting (setSetting (setSetting (setSetting s.settings
            "sync_status" "running") "sync_current_item" "0")
            "sync_total_items" "0") "sync_last_error" "")
          "sync_status" "error") "sync_last_error" syncMissingUsernameMsg)
          "sync_status" "error") "sync_last_error" syncMissingUsernameMsg,
        s.calls⟩) := by
    unfold runCollectionSync
    rw [hinner]
  rw [hrun]
  refine ⟨rfl, ?_, ?_, rfl, rfl⟩
  · rw [getSetting_set_ne _ _ _ _ (by decide), getSetting_set_self]
  · rw [getSetting_set_self]

/-- An environment with no configured username. -/
def envNoUser : RunEnv :=
  { username := none
    pages := []
    valueOutcome := .error "value endpoint unavailable"
    priceOutcome := fun _ => .ok none
    now := "2026-01-01T00:00:00.000Z"
    txnFault := none }

/-- An empty persistent state. -/
def state0 : SyncState := ⟨⟨[], []⟩, [], 0⟩

/-- Witness for C7 at a concrete environment and state. -/
theorem C7_missing_username_witness :
    (runCollectionSync envNoUser state0).1 = .error syncMissingUsernameMsg ∧
    getSetting (runCollectionSync envNoUser state0).2.settings "sync_status" =
      some "error" ∧
    getSetting (runCollectionSync envNoUser state0).2.settings "sync_last_error" =
      some syncMissingUsernameMsg ∧
    (runCollectionSync envNoUser state0).2.calls = state0.calls ∧
    (runCollectionSync envNoUser state0).2.db = state0.db :=
  C7_missing_username envNoUser state0 rfl

/-! ## Claim C4 — a failed run leaves the item table untouched -/

/-- Every error path of the run body leaves the database tables as they were:
the username check and a page-fetch failure throw before the transaction, and
a statement failure inside the transaction rolls it back. -/
theorem runCollectionSyncInner_error_db (env : RunEnv) (s : SyncState) :
    ∀ e s1, runCollectionSyncInner env s = (.error e, s1) → s1.db = s.db := by
  intro e s1 h
  simp only [runCollectionSyncInner] at h
  split at h
  · split at h
    · obtain ⟨h1, h2⟩ := Prod.mk.injEq .. ▸ h
      rw [← h2]
    · split at h
      · obtain ⟨h1, h2⟩ := Prod.mk.injEq .. ▸ h
        rw [← h2]
      · obtain ⟨h1, h2⟩ := Prod.mk.injEq .. ▸ h
        exact absurd h1 (fun hh => Except.noConfusion hh)
  · obtain ⟨h1, h2⟩ := Prod.mk.injEq .. ▸ h
    rw [← h2]

/-- C4: a sync run that throws — during page fetching or during the
persistence transaction — leaves `collection_items` (and the snapshot
history) exactly as they were before the run. -/
theorem C4_failed_run_preserves_items (env : RunEnv) (s : SyncState)
    (e : String) (s' : SyncState)
    (h : runCollectionSync env s = (.error e, s')) :
    s'.db.items = s.db.items ∧ s'.db.history = s.db.history := by
  revert h
  unfold runCollectionSync
  rcases hI : runCollectionSyncInner env s with ⟨res, s1⟩
  cases res with
  | ok n =>
    intro h
    simp at h
  | error e2 =>
    intro h
    have hdb := runCollectionSyncInner_error_db env s e2 s1 hI
    obtain ⟨h1, h2⟩ := Prod.mk.injEq .. ▸ h
    rw [← h2]
    exact ⟨by rw [hdb], by rw [hdb]⟩

/-- A run whose first collection page fetch throws. -/
def envPageFail : RunEnv :=
  { username := some "user"
    pages := [.error "network down"]
    valueOutcome := .error "value endpoint unavailable"
    priceOutcome := fun _ => .ok none
    now := "2026-01-01T00:00:00.000Z"
    txnFault := none }

/-- A pre-run state holding one item row and one snapshot. -/
def statePrev : SyncState :=
  ⟨⟨[⟨9, 9, "a", "t", none, none, [], [], none, "d", 0, 0, none, none, none, none⟩],
    [⟨"old", 3, none, none, none⟩]⟩, [], 0⟩

/-- Witness for C4: a concrete failing run over a non-empty prior table. -/
theorem C4_failed_run_preserves_items_witness :
    (runCollectionSync envPageFail statePrev).2.db.items = statePrev.db.items ∧
    (runCollectionSync envPageFail statePrev).2.db.history = statePrev.db.history :=
  C4_failed_run_preserves_items envPageFail statePrev "network down"
    (runCollectionSync envPageFail statePrev).2 (by decide)

/-! ## The successful-run characterization (shared by C2 and C6) -/

theorem validRows_cons_none (env : RunEnv) (rest : List (Option Release)) :
    validRows env (none :: rest) = validRows env rest := rfl

theorem validRows_cons_no_bi (env : RunEnv) (rel : Release)
    (rest : List (Option Release)) (h : rel.basic_information = none) :
    validRows env (some rel :: rest) = validRows env rest := by
  unfold validRows
  rw [List.filterMap_cons]
  simp only [h]

theorem validRows_cons_id0 (env : RunEnv) (rel : Release) (bi : BasicInfo)
    (rest : List (Option Release)) (hbi : rel.basic_information = some bi)
    (hid : rel.id = 0) :
    validRows env (some rel :: rest) = validRows env rest := by
  unfold validRows
  rw [List.filterMap_cons]
  simp only [hbi]
  rw [if_pos hid]

theorem validRows_cons_valid (env : RunEnv) (rel : Release) (bi : BasicInfo)
    (rest : List (Option Release)) (hbi : rel.basic_information = some bi)
    (hid : ¬ rel.id = 0) :
    validRows env (some rel :: rest) =
      mkItemRow env.now (env.priceOutcome rel.id) rel bi :: validRows env rest := by
  unfold validRows
  rw [List.filterMap_cons]
  simp only [hbi]
  rw [if_neg hid]

theorem upsertAll_cons (items : List ItemRow) (r : ItemRow) (rows : List ItemRow) :
    upsertAll items (r :: rows) = upsertAll (upsertItem items r) rows := rfl

/-- Upserting rows whose keys are pairwise distinct and absent from the table
appends them in order. -/
theorem upsertAll_fresh :
    ∀ (rows : List ItemRow) (items : List ItemRow),
      (rows.map (fun r => r.id)).Nodup →
      (∀ r ∈ rows, ∀ x ∈ items, ¬ x.id = r.id) →
      upsertAll items rows = items ++ rows := by
  intro rows
  induction rows with
  | nil => intro items _ _; simp [upsertAll]
  | cons r rows ih =>
    intro items hnd hdis
    have hany : items.any (fun x => x.id = r.id) = false := by
      apply Bool.eq_false_iff.mpr
      intro hany
      rcases List.any_eq_true.mp hany with ⟨x, hx, hx2⟩
      exact hdis r (List.mem_cons_self r rows) x hx (of_decide_eq_true hx2)
    have hup : upsertItem items r = items ++ [r] := by
      unfold upsertItem
      rw [if_neg (by simp [hany])]
    rw [upsertAll_cons, hup,
      ih (items ++ [r]) (List.nodup_cons.mp hnd).2 ?_]
    · simp
    · intro r' hr' x hx
      rcases List.mem_append.mp hx with hx | hx
      · exact hdis r' (List.mem_cons_of_mem r hr') x hx
      · have hxr : x = r := by simpa using hx
        subst hxr
        intro hh
        refine (List.nodup_cons.mp hnd).1 ?_
        simpa [hh] using List.mem_map_of_mem (fun r : ItemRow => r.id) hr'

/-- With no database fault configured, the item loop never aborts, and its
staged rows are exactly the valid releases' rows upserted in order. -/
theorem syncLoop_no_fault (env : RunEnv) (h : env.txnFault = none) :
    ∀ (rs : List (Option Release)) (st : LoopState),
      (syncLoop env rs st).2 = false ∧
      (syncLoop env rs st).1.items = upsertAll st.items (validRows env rs) := by
  intro rs
  induction rs with
  | nil => intro st; exact ⟨rfl, rfl⟩
  | cons r rest ih =>
    intro st
    cases r with
    | none =>
      simp only [syncLoop]
      rw [validRows_cons_none]
      exact ih _
    | some rel =>
      rcases hbi : rel.basic_information with _ | bi
      · simp only [syncLoop, hbi]
        rw [validRows_cons_no_bi env rel rest hbi]
        exact ih _
      · by_cases hid : rel.id = 0
        · simp only [syncLoop, hbi]
          rw [if_pos hid, validRows_cons_id0 env rel bi rest hbi hid]
          exact ih _
        · simp only [syncLoop, hbi]
          rw [if_neg hid, h]
          rw [if_neg (by simp : ¬ (none : Option Nat) = some st.qIdx)]
          rw [validRows_cons_valid env rel bi rest hbi hid, upsertAll_cons]
          exact ih _

/-- With no database fault, the transaction commits: the item table becomes
the valid rows (over an emptied table) and one snapshot is appended whose
`total_items` is the fetched release count. -/
theorem syncTransaction_no_fault_eq (env : RunEnv) (ht : env.txnFault = none)
    (rs : List (Option Release)) (v : Option CollValue) (db : DB)
    (settings : Settings) (calls : Nat) :
    syncTransaction env rs v db settings calls =
      ⟨some
        ⟨upsertAll [] (validRows env rs),
         db.history ++
           [⟨env.now, rs.length,
             parseValue (v.map (fun x => x.minimum)),
             parseValue (v.map (fun x => x.median)),
             parseValue (v.map (fun x => x.maximum))⟩]⟩,
       (syncLoop env rs ⟨[], settings, calls, 1, 0⟩).1.settings,
       (syncLoop env rs ⟨[], settings, calls, 1, 0⟩).1.calls⟩ := by
  unfold syncTransaction
  rw [if_neg (by rw [ht]; simp)]
  obtain ⟨h2, h1⟩ := syncLoop_no_fault env ht rs ⟨[], settings, calls, 1, 0⟩
  rcases hL : syncLoop env rs ⟨[], settings, calls, 1, 0⟩ with ⟨stL, faulted⟩
  rw [hL] at h2 h1
  subst h2
  simp only []
  rw [if_neg (by rw [ht]; simp)]
  rw [← h1]

/-- The full characterization of a successful run: configured username, pages
fetched, no database fault. -/
theorem run_success (env : RunEnv) (s : SyncState) (rs : List (Option Release))
    (hu : usernameOk env.username = true)
    (hf : (fetchPagesGo env.pages).1 = .ok rs)
    (ht : env.txnFault = none) :
    (runCollectionSync env s).1 = .ok rs.length ∧
    (runCollectionSync env s).2.db.items = upsertAll [] (validRows env rs) ∧
    (runCollectionSync env s).2.db.history =
      s.db.history ++
        [⟨env.now, rs.length,
          parseValue ((valueResponseOf env).map (fun x => x.minimum)),
          parseValue ((valueResponseOf env).map (fun x => x.median)),
          parseValue ((valueResponseOf env).map (fun x => x.maximum))⟩] ∧
    getSetting (runCollectionSync env s).2.settings "sync_status" = some "idle" := by
  simp only [runCollectionSync, runCollectionSyncInner]
  rw [hu]
  simp only [if_pos]
  rw [hf]
  simp only []
  rw [syncTransaction_no_fault_eq env ht]
  refine ⟨rfl, rfl, rfl, ?_⟩
  dsimp only
  rw [getSetting_set_self]

/-- Over an all-valid release list, the produced rows' primary keys are the
releases' instance ids, one row per release. -/
theorem validRows_of_valid (env : RunEnv) :
    ∀ rels : List Release,
      (∀ rel ∈ rels, rel.basic_information ≠ none ∧ rel.id ≠ 0) →
      (validRows env (rels.map some)).map (fun r => r.id) =
        rels.map (fun rel => rel.instance_id) ∧
      (validRows env (rels.map some)).length = rels.length := by
  intro rels
  induction rels with
  | nil => intro _; exact ⟨rfl, rfl⟩
  | cons rel rels ih =>
    intro hv
    obtain ⟨hbi', hid⟩ := hv rel (List.mem_cons_self rel rels)
    obtain ⟨bi, hbi⟩ := Option.ne_none_iff_exists'.mp hbi'
    obtain ⟨ih1, ih2⟩ := ih (fun r hr => hv r (List.mem_cons_of_mem rel hr))
    rw [List.map_cons, validRows_cons_valid env rel bi (rels.map some) hbi hid]
    constructor
    · rw [List.map_cons, ih1, List.map_cons]
      rfl
    · simp [ih2]

/-- A valid release's row is in the produced row set. -/
theorem mkItemRow_mem_validRows (env : RunEnv) (rels : List Release)
    (rel : Release) (bi : BasicInfo) (hmem : rel ∈ rels)
    (hbi : rel.basic_information = some bi) (hid : ¬ rel.id = 0) :
    mkItemRow env.now (env.priceOutcome rel.id) rel bi ∈
      validRows env (rels.map some) := by
  unfold validRows
  apply List.mem_filterMap.mpr
  refine ⟨some rel, List.mem_map_of_mem some hmem, ?_⟩
  simp only [hbi]
  rw [if_neg hid]

/-- Under the validity and distinctness hypotheses, a successful run's item
table is exactly the valid rows in order. -/
theorem run_success_valid_items (env : RunEnv) (s : SyncState)
    (rels : List Release)
    (hu : usernameOk env.username = true)
    (hf : (fetchPagesGo env.pages).1 = .ok (rels.map some))
    (ht : env.txnFault = none)
    (hvalid : ∀ rel ∈ rels, rel.basic_information ≠ none ∧ rel.id ≠ 0)
    (hnd : (rels.map (fun rel => rel.instance_id)).Nodup) :
    (runCollectionSync env s).2.db.items = validRows env (rels.map some) := by
  obtain ⟨_, hitems, _, _⟩ := run_success env s (rels.map some) hu hf ht
  obtain ⟨hids, _⟩ := validRows_of_valid env rels hvalid
  rw [hitems, upsertAll_fresh _ [] (by rw [hids]; exact hnd)
    (by intro r _ x hx; simp at hx)]
  simp

/-! ## Claim C2 — snapshot `total_items` vs the item-row count -/

/-- C2 amended: after every successful run the new snapshot's `total_items`
is the number of fetched releases; the `collection_items` row count equals it
when every fetched release is valid (present, has `basic_information`,
nonzero id) and the instance ids are pairwise distinct. (Skipped releases or
shared instance ids make the row count smaller than `total_items` — see the
counterexample.) -/
theorem C2_snapshot_total_matches_rows (env : RunEnv) (s : SyncState)
    (rs : List (Option Release))
    (hu : usernameOk env.username = true)
    (hf : (fetchPagesGo env.pages).1 = .ok rs)
    (ht : env.txnFault = none) :
    (runCollectionSync env s).1 = .ok rs.length ∧
    (∃ snap : Snapshot,
      (runCollectionSync env s).2.db.history = s.db.history ++ [snap] ∧
      snap.total_items = rs.length) ∧
    (∀ rels : List Release, rs = rels.map some →
      (∀ rel ∈ rels, rel.basic_information ≠ none ∧ rel.id ≠ 0) →
      (rels.map (fun rel => rel.instance_id)).Nodup →
      (runCollectionSync env s).2.db.items.length = rs.length) := by
  obtain ⟨hres, _, hhist, _⟩ := run_success env s rs hu hf ht
  refine ⟨hres, ⟨⟨env.now, rs.length,
      parseValue ((valueResponseOf env).map (fun x => x.minimum)),
      parseValue ((valueResponseOf env).map (fun x => x.median)),
      parseValue ((valueResponseOf env).map (fun x => x.maximum))⟩,
      hhist, rfl⟩, ?_⟩
  intro rels hrs hvalid hnd
  subst hrs
  obtain ⟨_, hlen⟩ := validRows_of_valid env rels hvalid
  rw [run_success_valid_items env s rels hu hf ht hvalid hnd, hlen]
  simp

/-- A run whose single fetched release is invalid (`null`): it is skipped at
insertion. -/
def envSkip : RunEnv :=
  { username := some "user"
    pages := [.ok ⟨some [none], none⟩]
    valueOutcome := .error "value endpoint unavailable"
    priceOutcome := fun _ => .ok none
    now := "2026-01-01T00:00:00.000Z"
    txnFault := none }

/-- Counterexample for C2 as stated: the run succeeds, the new snapshot's
`total_items` is 1 (the fetched count), but `collection_items` holds 0 rows —
the skipped release is still counted. -/
theorem C2_snapshot_total_mismatch_cex :
    (runCollectionSync envSkip state0).1 = .ok 1 ∧
    ((runCollectionSync envSkip state0).2.db.history.map
      (fun snap => snap.total_items)) = [1] ∧
    (runCollectionSync envSkip state0).2.db.items.length = 0 ∧
    (1 : Nat) ≠ 0 := by
  refine ⟨by decide, by decide, by decide, by decide⟩

/-- A valid release whose price lookup succeeds. -/
def relA : Release :=
  ⟨77, 501, 1, 4, "2020-01-01",
   some ⟨"T1", 1999, "http://img", [⟨"Vinyl", "1", none⟩], ["A1"], some ["Rock"], none⟩⟩

/-- A valid release whose price lookup throws. -/
def relB : Release :=
  ⟨78, 502, 1, 5, "2020-01-02",
   some ⟨"T2", 0, "", [], [], none, some ["Ambient"]⟩⟩

/-- A two-item run in which release 78's price lookup throws a 500. -/
def envTwo : RunEnv :=
  { username := some "user"
    pages := [.ok ⟨some [some relA, some relB], none⟩]
    valueOutcome := .error "value endpoint unavailable"
    priceOutcome := fun n =>
      if n = 77 then .ok (some [("Good (G)", ⟨"USD", 5⟩), ("Mint (M)", ⟨"USD", 20⟩)])
      else .error ⟨"Discogs API request failed: 500 Internal Server Error - ", none⟩
    now := "2026-01-01T00:00:00.000Z"
    txnFault := none }

/-- Witness for the amended C2 at a concrete two-release run. -/
theorem C2_snapshot_total_matches_rows_witness :
    (runCollectionSync envTwo state0).1 = .ok [some relA, some relB].length ∧
    (∃ snap : Snapshot,
      (runCollectionSync envTwo state0).2.db.history =
        state0.db.history ++ [snap] ∧
      snap.total_items = [some relA, some relB].length) ∧
    (∀ rels : List Release, [some relA, some relB] = rels.map some →
      (∀ rel ∈ rels, rel.basic_information ≠ none ∧ rel.id ≠ 0) →
      (rels.map (fun rel => rel.instance_id)).Nodup →
      (runCollectionSync envTwo state0).2.db.items.length =
        [some relA, some relB].length) :=
  C2_snapshot_total_matches_rows envTwo state0 [some relA, some relB]
    (by decide) (by decide) rfl

/-! ## Claim C6 — a per-item price failure does not abort the run -/

/-- A server that answers 404 to the price-suggestion request. -/
def oracle404 : Nat → FetchOutcome PriceSuggestions :=
  fun _ => .httpError ⟨404, "Not Found", "", none⟩

/-- C6: in a run where some release's price lookup throws, the run still
completes (`ok`, status idle); every valid release gets its row, where a
thrown lookup leaves that row's suggested value and last-value-check null
while a returned map yields the condition-fallback value and a check
timestamp; and a 404 from the price-suggestion endpoint is treated as "no
data" (`null`), not as an error. -/
theorem C6_price_failure_isolated (env : RunEnv) (s : SyncState)
    (rels : List Release) (r0 : Release) (e0 : Err)
    (hu : usernameOk env.username = true)
    (hf : (fetchPagesGo env.pages).1 = .ok (rels.map some))
    (ht : env.txnFault = none)
    (hvalid : ∀ rel ∈ rels, rel.basic_information ≠ none ∧ rel.id ≠ 0)
    (hnd : (rels.map (fun rel => rel.instance_id)).Nodup)
    (hr0 : r0 ∈ rels) (he0 : env.priceOutcome r0.id = .error e0) :
    (runCollectionSync env s).1 = .ok rels.length ∧
    getSetting (runCollectionSync env s).2.settings "sync_status" = some "idle" ∧
    (runCollectionSync env s).2.db.items = validRows env (rels.map some) ∧
    (∀ rel ∈ rels, ∀ bi, rel.basic_information = some bi →
      mkItemRow env.now (env.priceOutcome rel.id) rel bi ∈
        (runCollectionSync env s).2.db.items ∧
      (∀ er, env.priceOutcome rel.id = .error er →
        (mkItemRow env.now (env.priceOutcome rel.id) rel bi).suggested_value = none ∧
        (mkItemRow env.now (env.priceOutcome rel.id) rel bi).last_value_check = none) ∧
      (∀ m, env.priceOutcome rel.id = .ok (some m) →
        (mkItemRow env.now (env.priceOutcome rel.id) rel bi).suggested_value =
          resolveSuggestedValue m ∧
        (mkItemRow env.now (env.priceOutcome rel.id) rel bi).last_value_check =
          some env.now)) ∧
    fetchPriceSuggestions true oracle404 = .ok none := by
  obtain ⟨hres, _, _, hidle⟩ := run_success env s (rels.map some) hu hf ht
  have hIV := run_success_valid_items env s rels hu hf ht hvalid hnd
  refine ⟨by simpa using hres, hidle, hIV, ?_, by decide⟩
  intro rel hmem bi hbi
  have hidne : ¬ rel.id = 0 := (hvalid rel hmem).2
  refine ⟨?_, ?_, ?_⟩
  · rw [hIV]
    exact mkItemRow_mem_validRows env rels rel bi hmem hbi hidne
  · intro er her
    exact ⟨by rw [her]; rfl, by rw [her]; rfl⟩
  · intro m hm
    exact ⟨by rw [hm]; rfl, by rw [hm]; rfl⟩

/-- Witness for C6 at the concrete two-release run: release 78's lookup
throws, release 77 resolves to the Mint value. -/
theorem C6_price_failure_isolated_witness :
    (runCollectionSync envTwo state0).1 = .ok [relA, relB].length ∧
    getSetting (runCollectionSync envTwo state0).2.settings "sync_status" =
      some "idle" ∧
    (runCollectionSync envTwo state0).2.db.items =
      validRows envTwo ([relA, relB].map some) ∧
    (∀ rel ∈ [relA, relB], ∀ bi, rel.basic_information = some bi →
      mkItemRow envTwo.now (envTwo.priceOutcome rel.id) rel bi ∈
        (runCollectionSync envTwo state0).2.db.items ∧
      (∀ er, envTwo.priceOutcome rel.id = .error er →
        (mkItemRow envTwo.now (envTwo.priceOutcome rel.id) rel bi).suggested_value
          = none ∧
        (mkItemRow envTwo.now (envTwo.priceOutcome rel.id) rel bi).last_value_check
          = none) ∧
      (∀ m, envTwo.priceOutcome rel.id = .ok (some m) →
        (mkItemRow envTwo.now (envTwo.priceOutcome rel.id) rel bi).suggested_value
          = resolveSuggestedValue m ∧
        (mkItemRow envTwo.now (envTwo.priceOutcome rel.id) rel bi).last_value_check
          = some envTwo.now)) ∧
    fetchPriceSuggestions true oracle404 = .ok none :=
  C6_price_failure_isolated envTwo state0 [relA, relB] relB
    ⟨"Discogs API request failed: 500 Internal Server Error - ", none⟩
    (by decide) (by decide) rfl (by decide) (by decide) (by decide) (by decide)

end ClaimProofs

end Discogs
